import Mathlib

/-!
Shallow embedding of the VibeProxy Linux app core (src/apps/linux/src):
the server lifecycle manager (server_manager.rs), the secret-service
keyring wrapper (keyring.rs) and the config manager (config_manager.rs).
External effects (config load, backend health check, secret-service calls,
file writes) are passed in as explicit outcomes / fault flags, so each
Rust method becomes a pure Lean function of its inputs and the injected
environment behaviour.
-/

deriving instance DecidableEq for Except

namespace VibeProxy

/-- Modelled from the spec (§6, §4.3): `vibeproxy_core::BackendConfig` is the
`backend` sub-record of the config, consumed only to construct a
`BackendClient`; its fields are irrelevant to the claims, only its identity. -/
structure BackendConfig where
  host : String
  port : Nat
deriving Repr, DecidableEq

/-- Modelled from the spec (§3): `vibeproxy_core::AppConfig`, an opaque record
containing at least a `backend` sub-record. -/
structure AppConfig where
  backend : BackendConfig
deriving Repr, DecidableEq

/-- Modelled from the spec (§3, §8): the fully-defaulted `AppConfig`
(`AppConfig::default()`); its concrete field values are irrelevant to the
claims, only that it is a fixed distinguished value. -/
def AppConfig.default : AppConfig := ⟨⟨"localhost", 8080⟩⟩

/-- Modelled from the spec (§4.3): `vibeproxy_core::ClientError` with the
classification the lifecycle manager distinguishes —
`Unavailable | Other(detail)`. -/
inductive ClientError where
  | Unavailable
  | other (detail : String)
deriving Repr, DecidableEq

/-- Modelled from the spec (§4.3): the health-check payload
`Health{healthy, latency_ms, message}` returned by
`BackendClient::health_check`. -/
structure HealthStatus where
  healthy : Bool
  latency_ms : Nat
  message : Option String
deriving Repr, DecidableEq

/-- `ServerStatus` from server_manager.rs. -/
structure ServerStatus where
  running : Bool
  latency_ms : Nat
  message : Option String
deriving Repr, DecidableEq

/-- Errors a lifecycle operation can return (anyhow::Error in the source),
split by which call produced them. -/
inductive MgrError where
  | configErr (detail : String)
  | clientErr (e : ClientError)
deriving Repr, DecidableEq

/-- Observable outcome of `ServerManager::start`: the returned `Result`, the
value of the `is_running` flag after the call, and whether the body reached
the config load / the health check (the early idempotent return skips both). -/
structure StartResult where
  result : Except MgrError Unit
  is_running : Bool
  loadedConfig : Bool
  checkedHealth : Bool
deriving Repr, DecidableEq

/-- Observable outcome of `ServerManager::stop`. -/
structure StopResult where
  result : Except MgrError Unit
  is_running : Bool
deriving Repr, DecidableEq

/-- Observable outcome of `ServerManager::status`: the returned value and the
`is_running` flag after the call. -/
structure StatusResult where
  result : Except MgrError ServerStatus
  is_running : Bool
deriving Repr, DecidableEq

/-- `ServerManager::start` (server_manager.rs). `is_running` is the flag value
at entry; `load` is the outcome of `self.config_manager.load()`; `hc` gives
the outcome of `client.health_check()` for the client built from
`config.backend`. Mirrors the source control flow: early return when already
running; propagate a config-load error; on `Ok(status)` return running
(whether or not `status.healthy`); on `Err(Unavailable)` fall through to the
soft-start (mark running); on any other error return it with the flag
untouched. -/
def ServerManager.start (is_running : Bool) (load : Except String AppConfig)
    (hc : BackendConfig → Except ClientError HealthStatus) : StartResult :=
  if is_running then
    ⟨.ok (), true, false, false⟩
  else
    match load with
    | .error e => ⟨.error (.configErr e), false, true, false⟩
    | .ok config =>
      match hc config.backend with
      | .ok status =>
        if status.healthy then
          ⟨.ok (), true, true, true⟩
        else
          ⟨.ok (), true, true, true⟩
      | .error .Unavailable => ⟨.ok (), true, true, true⟩
      | .error (.other d) => ⟨.error (.clientErr (.other d)), false, true, true⟩

/-- `ServerManager::stop` (server_manager.rs): early no-op return when the
flag is already false, otherwise store false. -/
def ServerManager.stop (is_running : Bool) : StopResult :=
  if !is_running then
    ⟨.ok (), false⟩
  else
    ⟨.ok (), false⟩

/-- `ServerManager::status` (server_manager.rs): loads config, builds a
client, issues a fresh health check, and maps the outcome; the cached
`is_running` flag is neither read for the result nor written. -/
def ServerManager.status (is_running : Bool) (load : Except String AppConfig)
    (hc : BackendConfig → Except ClientError HealthStatus) : StatusResult :=
  match load with
  | .error e => ⟨.error (.configErr e), is_running⟩
  | .ok config =>
    match hc config.backend with
    | .ok health => ⟨.ok ⟨health.healthy, health.latency_ms, health.message⟩, is_running⟩
    | .error .Unavailable => ⟨.ok ⟨false, 0, some "Server unavailable"⟩, is_running⟩
    | .error (.other d) => ⟨.error (.clientErr (.other d)), is_running⟩

/-- C1: starting from the Stopped flag, a health check failing with
`Unavailable` makes `start()` succeed and set the flag Running (soft-start),
while any other classified error is returned as a failure with the flag still
Stopped. -/
theorem ServerManager.start_error_classification
    (load : Except String AppConfig) (hc : BackendConfig → Except ClientError HealthStatus)
    (config : AppConfig) (hload : load = .ok config) :
    (hc config.backend = .error .Unavailable →
      ServerManager.start false load hc = ⟨.ok (), true, true, true⟩) ∧
    (∀ d, hc config.backend = .error (.other d) →
      ServerManager.start false load hc = ⟨.error (.clientErr (.other d)), false, true, true⟩) := by
  subst hload
  constructor
  · intro h
    simp [ServerManager.start, h]
  · intro d h
    simp [ServerManager.start, h]

/-- Witness for C1 at a concrete stub environment. -/
theorem ServerManager.start_error_classification_witness :
    ServerManager.start false (.ok AppConfig.default)
      (fun _ => .error .Unavailable) = ⟨.ok (), true, true, true⟩ :=
  (ServerManager.start_error_classification (.ok AppConfig.default)
    (fun _ => .error .Unavailable) AppConfig.default rfl).1 rfl

/-- C2: `status()` is computed only from the fresh health check — its result
does not depend on the cached running flag and the flag is unchanged — and it
maps a healthy probe, `Unavailable`, and any other client error exactly as the
source does. -/
theorem ServerManager.status_fresh_probe
    (flag flag' : Bool) (load : Except String AppConfig)
    (hc : BackendConfig → Except ClientError HealthStatus)
    (config : AppConfig) (hload : load = .ok config) :
    (ServerManager.status flag load hc).is_running = flag ∧
    (ServerManager.status flag load hc).result = (ServerManager.status flag' load hc).result ∧
    (∀ h, hc config.backend = .ok h →
      (ServerManager.status flag load hc).result = .ok ⟨h.healthy, h.latency_ms, h.message⟩) ∧
    (hc config.backend = .error .Unavailable →
      (ServerManager.status flag load hc).result = .ok ⟨false, 0, some "Server unavailable"⟩) ∧
    (∀ d, hc config.backend = .error (.other d) →
      (ServerManager.status flag load hc).result = .error (.clientErr (.other d))) := by
  subst hload
  refine ⟨?_, ?_, ?_, ?_, ?_⟩
  · cases h : hc config.backend with
    | ok s => simp [ServerManager.status, h]
    | error e => cases e <;> simp [ServerManager.status, h]
  · cases h : hc config.backend with
    | ok s => simp [ServerManager.status, h]
    | error e => cases e <;> simp [ServerManager.status, h]
  · intro s h
    simp [ServerManager.status, h]
  · intro h
    simp [ServerManager.status, h]
  · intro d h
    simp [ServerManager.status, h]

/-- Witness for C2 at a concrete stub environment: against an `Unavailable`
stub, `status` with the flag cached as Running still reports the sentinel
not-running status. -/
theorem ServerManager.status_fresh_probe_witness :
    (ServerManager.status true (.ok AppConfig.default)
        (fun _ => .error .Unavailable)).result =
      .ok ⟨false, 0, some "Server unavailable"⟩ :=
  (ServerManager.status_fresh_probe true false (.ok AppConfig.default)
    (fun _ => .error .Unavailable) AppConfig.default rfl).2.2.2.1 rfl

/-- C5: `start()` with the flag already Running and `stop()` with the flag
already Stopped return success immediately (the early `start` return neither
loads config nor probes), and a second call of either operation right after a
first leaves the same flag state with no error. -/
theorem ServerManager.start_stop_idempotent
    (load load' : Except String AppConfig)
    (hc hc' : BackendConfig → Except ClientError HealthStatus) :
    ServerManager.start true load hc = ⟨.ok (), true, false, false⟩ ∧
    ServerManager.stop false = ⟨.ok (), false⟩ ∧
    ((ServerManager.start false load hc).is_running = true →
      ServerManager.start (ServerManager.start false load hc).is_running load' hc' =
        ⟨.ok (), true, false, false⟩) ∧
    ServerManager.stop (ServerManager.stop true).is_running = ⟨.ok (), false⟩ := by
  refine ⟨rfl, rfl, ?_, rfl⟩
  intro h
  rw [h]
  rfl

/-- Witness for C5: the second `start` right after a first successful
soft-start succeeds as a no-op that neither loads config nor probes. -/
theorem ServerManager.start_stop_idempotent_witness :
    ServerManager.start (ServerManager.start false (.ok AppConfig.default)
        (fun _ => .error .Unavailable)).is_running
      (.ok AppConfig.default) (fun _ => .error .Unavailable) =
      ⟨.ok (), true, false, false⟩ :=
  (ServerManager.start_stop_idempotent (.ok AppConfig.default) (.ok AppConfig.default)
    (fun _ => .error .Unavailable) (fun _ => .error .Unavailable)).2.2.1 rfl

/-- C9: if the health check during `start()` succeeds but reports
`healthy = false`, `start()` still returns success and sets the flag Running,
exactly as in the `Unavailable` soft-start path. -/
theorem ServerManager.start_unhealthy_probe
    (load : Except String AppConfig)
    (hc : BackendConfig → Except ClientError HealthStatus)
    (config : AppConfig) (h : HealthStatus)
    (hload : load = .ok config) (hhc : hc config.backend = .ok h)
    (hunhealthy : h.healthy = false) :
    ServerManager.start false load hc = ⟨.ok (), true, true, true⟩ := by
  subst hload
  simp [ServerManager.start, hhc, hunhealthy]

/-- Witness for C9 at a stub returning a reachable-but-unhealthy probe. -/
theorem ServerManager.start_unhealthy_probe_witness :
    ServerManager.start false (.ok AppConfig.default)
      (fun _ => .ok ⟨false, 5, some "degraded"⟩) = ⟨.ok (), true, true, true⟩ :=
  ServerManager.start_unhealthy_probe (.ok AppConfig.default)
    (fun _ => .ok ⟨false, 5, some "degraded"⟩) AppConfig.default
    ⟨false, 5, some "degraded"⟩ rfl rfl rfl

/-! ## Keyring (keyring.rs)

The backing secret-service collection is modelled as a list of items in
creation order.  A secret payload (`Vec<u8>` in the source) is represented by
which side of UTF-8 validation it falls on: the byte encoding is a bijection
between strings and valid UTF-8 byte sequences, so `utf8 s` stands for the
(unique) valid encoding of `s` and `invalid bs` for a byte sequence that is
not valid UTF-8.  Low-level secret-service calls that can fail in the source
(`search_items`, `set_secret`, `create_item`, `get_secret`, `Item::delete`)
are driven by an injected `Faults` record. -/

/-- A secret payload: either the UTF-8 encoding of a string or an invalid
byte sequence. -/
inductive Bytes where
  | utf8 (s : String)
  | invalid (raw : List Nat)
deriving Repr, DecidableEq

/-- A secret-service item: label, lookup attributes, secret payload and
content type. -/
structure Item where
  label : String
  attrs : List (String × String)
  secret : Bytes
  content_type : String
deriving Repr, DecidableEq

/-- The collection's items, in creation order. -/
abbrev Collection := List Item

/-- `SERVICE_NAME` from keyring.rs. -/
def SERVICE_NAME : String := "vibeproxy"

/-- Attribute-search matching: every queried (name, value) pair is bound in
the item's attribute map. -/
def attrsMatch (query : List (String × String)) (itm : Item) : Bool :=
  query.all (fun p => itm.attrs.lookup p.1 == some p.2)

/-- The attribute pair `{service: SERVICE_NAME, key}` used by
`store`/`retrieve`/`delete`. -/
def keyQuery (key : String) : List (String × String) :=
  [("service", SERVICE_NAME), ("key", key)]

/-- The attribute singleton `{service: SERVICE_NAME}` used by `list_keys`. -/
def serviceQuery : List (String × String) :=
  [("service", SERVICE_NAME)]

/-- Injected failures of the low-level secret-service calls.
`delete_fails_at = some i` means `Item::delete` errors on the i-th matched
item (0-based) of a `delete` call; earlier matched items delete fine. -/
structure Faults where
  search_fails : Bool
  set_secret_fails : Bool
  create_fails : Bool
  get_secret_fails : Bool
  delete_fails_at : Option Nat
deriving Repr, DecidableEq

/-- The fault-free environment. -/
def noFaults : Faults := ⟨false, false, false, false, none⟩

/-- The environment where only `search_items` fails. -/
def searchFault : Faults := ⟨true, false, false, false, none⟩

/-- The environment where `Item::delete` fails on the i-th matched item. -/
def deleteFaultAt (i : Nat) : Faults := ⟨false, false, false, false, some i⟩

/-- Errors surfaced by the keyring wrapper (the `anyhow` contexts in the
source). -/
inductive KeyringError where
  | createFailed
  | setSecretFailed
  | getSecretFailed
  | deleteFailed
  | encodingError
deriving Repr, DecidableEq

/-- Replace the first item satisfying `p` by its image under `g`; identity
when no item matches. -/
def mapFirstMatch : Collection → (Item → Bool) → (Item → Item) → Collection
  | [], _, _ => []
  | itm :: rest, p, g =>
    if p itm then g itm :: rest else itm :: mapFirstMatch rest p g

/-- Replace the last item satisfying `p` by its image under `g` (the item
`Vec::pop` hands back from the search result); identity when none matches. -/
def mapLastMatch (st : Collection) (p : Item → Bool) (g : Item → Item) : Collection :=
  (mapFirstMatch st.reverse p g).reverse

/-- `Item::set_secret(value, "text/plain")` applied to the last item matching
`q`. -/
def setSecretLastMatch (st : Collection) (q : List (String × String)) (b : Bytes) :
    Collection :=
  mapLastMatch st (fun itm => attrsMatch q itm) (fun itm => ⟨itm.label, itm.attrs, b, "text/plain"⟩)

/-- `Collection::create_item(label, attrs, secret, "text/plain", true)`: the
`replace = true` flag makes the service overwrite an item with matching
attributes when one exists, else append a new item. -/
def createItem (st : Collection) (label : String) (ats : List (String × String))
    (secret : Bytes) : Collection :=
  if st.any (fun itm => attrsMatch ats itm) then
    mapLastMatch st (fun itm => attrsMatch ats itm) (fun _ => ⟨label, ats, secret, "text/plain"⟩)
  else
    st ++ [⟨label, ats, secret, "text/plain"⟩]

/-- `Keyring::store` (keyring.rs): search by `{service, key}`; on a match,
`set_secret` on the popped (last) item; on no match, `create_item`; on a
search failure, fall back to `create_item` instead of propagating the
failure.  Returns the `Result` together with the collection afterwards. -/
def Keyring.store (st : Collection) (key value : String) (f : Faults) :
    Except KeyringError Unit × Collection :=
  let label := SERVICE_NAME ++ "/" ++ key
  if f.search_fails then
    if f.create_fails then (.error .createFailed, st)
    else (.ok (), createItem st label (keyQuery key) (.utf8 value))
  else
    if st.any (fun itm => attrsMatch (keyQuery key) itm) then
      if f.set_secret_fails then (.error .setSecretFailed, st)
      else (.ok (), setSecretLastMatch st (keyQuery key) (.utf8 value))
    else
      if f.create_fails then (.error .createFailed, st)
      else (.ok (), createItem st label (keyQuery key) (.utf8 value))

/-- `Keyring::retrieve` (keyring.rs): search by `{service, key}`; a search
failure is absorbed as `Ok(None)`; no match is `Ok(None)`; on a match, get
the popped (last) item's secret and decode it as UTF-8, a decode failure
being a hard error. -/
def Keyring.retrieve (st : Collection) (key : String) (f : Faults) :
    Except KeyringError (Option String) :=
  if f.search_fails then .ok none
  else
    match (st.filter (fun itm => attrsMatch (keyQuery key) itm)).getLast? with
    | some itm =>
      if f.get_secret_fails then .error .getSecretFailed
      else
        match itm.secret with
        | .utf8 s => .ok (some s)
        | .invalid _ => .error .encodingError
    | none => .ok none

/-- The `delete` loop of keyring.rs: walk the items matched by the search in
order, deleting each; a failing `Item::delete` propagates immediately,
leaving the not-yet-visited items in the collection. -/
def deleteMatching : Collection → List (String × String) → Option Nat →
    Except KeyringError Unit × Collection
  | [], _, _ => (.ok (), [])
  | itm :: rest, q, failAt =>
    if attrsMatch q itm then
      match failAt with
      | some 0 => (.error .deleteFailed, itm :: rest)
      | some (n + 1) => deleteMatching rest q (some n)
      | none => deleteMatching rest q none
    else
      ((deleteMatching rest q failAt).1, itm :: (deleteMatching rest q failAt).2)

/-- `Keyring::delete` (keyring.rs): search by `{service, key}`; a search
failure is absorbed as `Ok(())` with the collection untouched; otherwise
delete every matched item in order. -/
def Keyring.delete (st : Collection) (key : String) (f : Faults) :
    Except KeyringError Unit × Collection :=
  if f.search_fails then (.ok (), st)
  else deleteMatching st (keyQuery key) f.delete_fails_at

/-- `Keyring::list_keys` (keyring.rs): search by `{service}` only; a search
failure is absorbed as `Ok(vec![])`; otherwise collect the `key` attribute of
every matched item, silently skipping items without one. -/
def Keyring.list_keys (st : Collection) (f : Faults) :
    Except KeyringError (List String) :=
  if f.search_fails then .ok []
  else
    .ok ((st.filter (fun itm => attrsMatch serviceQuery itm)).filterMap
      (fun itm => itm.attrs.lookup "key"))

/-- An item whose attribute map is exactly `{service, key}` matches the
`{service, key}` search. -/
lemma attrsMatch_keyQuery_self (k label ct : String) (b : Bytes) :
    attrsMatch (keyQuery k) ⟨label, keyQuery k, b, ct⟩ = true := by
  simp [attrsMatch, keyQuery, List.lookup]

/-- A `{service, key}` match is in particular a `{service}` match carrying
the `key` attribute. -/
lemma attrsMatch_keyQuery_elim (k : String) (itm : Item)
    (h : attrsMatch (keyQuery k) itm = true) :
    attrsMatch serviceQuery itm = true ∧ itm.attrs.lookup "key" = some k := by
  simp [attrsMatch, keyQuery, serviceQuery] at h ⊢
  exact ⟨h.1, h.2⟩

/-- `mapLastMatch` on a collection whose appended last element matches
rewrites exactly that element. -/
lemma mapLastMatch_append_match (st : Collection) (x : Item) (p : Item → Bool)
    (g : Item → Item) (hx : p x = true) :
    mapLastMatch (st ++ [x]) p g = st ++ [g x] := by
  simp [mapLastMatch, mapFirstMatch, hx]

/-- If no item of the collection matches, the search-result list is empty. -/
lemma filter_eq_nil_of_any_false (st : Collection) (p : Item → Bool)
    (h : st.any p = false) : st.filter p = [] := by
  rw [List.filter_eq_nil_iff]
  intro a ha
  simp only [List.any_eq_false] at h
  simpa using h a ha

/-- The fault-free `delete` loop removes exactly the matching items. -/
lemma deleteMatching_none (st : Collection) (q : List (String × String)) :
    deleteMatching st q none = (.ok (), st.filter (fun itm => !(attrsMatch q itm))) := by
  induction st with
  | nil => simp [deleteMatching]
  | cons itm rest ih =>
    by_cases h : attrsMatch q itm = true
    · simp [deleteMatching, h, ih]
    · simp only [Bool.not_eq_true] at h
      simp [deleteMatching, h, ih]

/-- The `delete` loop failing on the i-th matched item propagates the error,
with exactly the earlier matched items removed and everything else intact. -/
lemma deleteMatching_fail (q : List (String × String)) :
    ∀ (st : Collection) (i : Nat),
      i < (st.filter (fun itm => attrsMatch q itm)).length →
      (deleteMatching st q (some i)).1 = .error .deleteFailed ∧
      (deleteMatching st q (some i)).2.filter (fun itm => attrsMatch q itm) =
        (st.filter (fun itm => attrsMatch q itm)).drop i ∧
      (deleteMatching st q (some i)).2.filter (fun itm => !(attrsMatch q itm)) =
        st.filter (fun itm => !(attrsMatch q itm)) := by
  intro st
  induction st with
  | nil => intro i h; simp at h
  | cons itm rest ih =>
    intro i h
    by_cases hm : attrsMatch q itm = true
    · cases i with
      | zero =>
        refine ⟨by simp [deleteMatching, hm], ?_, ?_⟩
        · simp [deleteMatching, hm]
        · simp [deleteMatching, hm]
      | succ n =>
        have h' : n < (rest.filter (fun itm => attrsMatch q itm)).length := by
          simp [hm] at h
          omega
        have := ih n h'
        refine ⟨?_, ?_, ?_⟩
        · simpa [deleteMatching, hm] using this.1
        · simpa [deleteMatching, hm] using this.2.1
        · simpa [deleteMatching, hm] using this.2.2
    · simp only [Bool.not_eq_true] at hm
      have h' : i < (rest.filter (fun itm => attrsMatch q itm)).length := by
        simpa [hm] using h
      have := ih i h'
      refine ⟨?_, ?_, ?_⟩
      · simpa [deleteMatching, hm] using this.1
      · simpa [deleteMatching, hm] using this.2.1
      · simpa [deleteMatching, hm] using this.2.2

/-- If no item of the collection matches `{service, key = k}`, the key list
reported by `list_keys` mentions `k` zero times. -/
lemma listKeys_count_zero (k : String) :
    ∀ st : Collection, (∀ itm ∈ st, attrsMatch (keyQuery k) itm = false) →
    ((st.filter (fun itm => attrsMatch serviceQuery itm)).filterMap
      (fun itm => itm.attrs.lookup "key")).count k = 0 := by
  intro st
  induction st with
  | nil => intro _; simp
  | cons itm rest ih =>
    intro h
    have hitm := h itm (by simp)
    have hrest : ∀ x ∈ rest, attrsMatch (keyQuery k) x = false :=
      fun x hx => h x (by simp [hx])
    by_cases hs : attrsMatch serviceQuery itm = true
    · cases hk : itm.attrs.lookup "key" with
      | none => simpa [hs, hk] using ih hrest
      | some k' =>
        have hne : ¬(k' = k) := by
          intro he
          subst he
          have hmt : attrsMatch (keyQuery k') itm = true := by
            simp [attrsMatch, keyQuery, serviceQuery] at hs ⊢
            exact ⟨hs, hk⟩
          rw [hmt] at hitm
          simp at hitm
        simpa [hs, hk, List.count_cons, hne] using ih hrest
    · simp only [Bool.not_eq_true] at hs
      simpa [hs] using ih hrest

/-- C3: `store` follows the upsert-by-attribute-search policy — on a match it
overwrites the popped item's payload in place, on no match it creates a new
item labeled `service/key` with the search attributes, and on a search
failure it creates instead of propagating — and consequently
`store(k,v₁); store(k,v₂); retrieve(k)` yields `v₂` with `list_keys()`
containing `k` exactly once. -/
theorem Keyring.store_upsert_policy (k v₁ v₂ : String) (st₀ : Collection)
    (h₀ : st₀.any (fun itm => attrsMatch (keyQuery k) itm) = false) :
    (∀ st v, st.any (fun itm => attrsMatch (keyQuery k) itm) = true →
      Keyring.store st k v noFaults =
        (.ok (), setSecretLastMatch st (keyQuery k) (.utf8 v))) ∧
    (∀ v, Keyring.store st₀ k v noFaults =
      (.ok (), st₀ ++ [⟨SERVICE_NAME ++ "/" ++ k, keyQuery k, .utf8 v, "text/plain"⟩])) ∧
    (∀ st v, Keyring.store st k v searchFault =
      (.ok (), createItem st (SERVICE_NAME ++ "/" ++ k) (keyQuery k) (.utf8 v))) ∧
    Keyring.retrieve (Keyring.store (Keyring.store st₀ k v₁ noFaults).2 k v₂ noFaults).2
      k noFaults = .ok (some v₂) ∧
    (∃ l, Keyring.list_keys (Keyring.store (Keyring.store st₀ k v₁ noFaults).2 k v₂ noFaults).2
      noFaults = .ok l ∧ l.count k = 1) := by
  have hm₁ := attrsMatch_keyQuery_self k (SERVICE_NAME ++ "/" ++ k) "text/plain" (.utf8 v₁)
  have hm₂ := attrsMatch_keyQuery_self k (SERVICE_NAME ++ "/" ++ k) "text/plain" (.utf8 v₂)
  have hst₁ : (Keyring.store st₀ k v₁ noFaults).2 =
      st₀ ++ [⟨SERVICE_NAME ++ "/" ++ k, keyQuery k, .utf8 v₁, "text/plain"⟩] := by
    simp [Keyring.store, createItem, noFaults, h₀]
  have hany : (st₀ ++ [(⟨SERVICE_NAME ++ "/" ++ k, keyQuery k, .utf8 v₁, "text/plain"⟩ : Item)]).any
      (fun itm => attrsMatch (keyQuery k) itm) = true := by
    simp [hm₁]
  have hst₂ : (Keyring.store (Keyring.store st₀ k v₁ noFaults).2 k v₂ noFaults).2 =
      st₀ ++ [⟨SERVICE_NAME ++ "/" ++ k, keyQuery k, .utf8 v₂, "text/plain"⟩] := by
    rw [hst₁]
    simp only [Keyring.store, noFaults, hany, if_false, if_true, Bool.false_eq_true,
      ite_false, ite_true, setSecretLastMatch]
    rw [mapLastMatch_append_match _ _ _ _ hm₁]
  have hfilter : (st₀ ++ [(⟨SERVICE_NAME ++ "/" ++ k, keyQuery k, .utf8 v₂, "text/plain"⟩ : Item)]).filter
      (fun itm => attrsMatch (keyQuery k) itm) =
      [⟨SERVICE_NAME ++ "/" ++ k, keyQuery k, .utf8 v₂, "text/plain"⟩] := by
    rw [List.filter_append, filter_eq_nil_of_any_false st₀ _ h₀]
    simp [hm₂]
  have h₀' : ∀ itm ∈ st₀, attrsMatch (keyQuery k) itm = false := by
    intro itm hmem
    have := List.any_eq_false.mp h₀ itm hmem
    simpa using this
  refine ⟨?_, ?_, ?_, ?_, ?_⟩
  · intro st v h
    simp [Keyring.store, noFaults, h]
  · intro v
    simp [Keyring.store, createItem, noFaults, h₀]
  · intro st v
    simp [Keyring.store, searchFault]
  · rw [hst₂]
    simp [Keyring.retrieve, noFaults, hfilter]
  · have hsvc := attrsMatch_keyQuery_elim k _ hm₂
    refine ⟨((st₀.filter (fun itm => attrsMatch serviceQuery itm)).filterMap
        (fun itm => itm.attrs.lookup "key")) ++ [k], ?_, ?_⟩
    · rw [hst₂]
      simp [Keyring.list_keys, noFaults, List.filter_append, hsvc.1, hsvc.2]
    · rw [List.count_append]
      rw [listKeys_count_zero k st₀ h₀']
      simp

/-- Witness for C3 starting from the empty collection with key "k". -/
theorem Keyring.store_upsert_policy_witness :
    Keyring.retrieve (Keyring.store (Keyring.store [] "k" "a" noFaults).2 "k" "b" noFaults).2
      "k" noFaults = .ok (some "b") :=
  (Keyring.store_upsert_policy "k" "a" "b" [] (by decide)).2.2.2.1

/-- Filtering by `p` after keeping only the items failing `p` leaves
nothing. -/
lemma filter_not_filter (st : Collection) (p : Item → Bool) :
    (st.filter (fun itm => !(p itm))).filter p = [] := by
  rw [List.filter_eq_nil_iff]
  intro a ha
  have hmem := (List.mem_filter.mp ha).2
  simp only [Bool.not_eq_true'] at hmem
  simp [hmem]

/-- C7: `delete` removes every item matching `{service, key}` (not just one),
deleting with zero matches is a successful no-op, and consequently
`store(k,v); delete(k); retrieve(k)` yields `None` while an immediate second
`delete(k)` also succeeds without changing anything. -/
theorem Keyring.delete_all_matching (st st' : Collection) (k v : String) :
    Keyring.delete st k noFaults =
      (.ok (), st.filter (fun itm => !(attrsMatch (keyQuery k) itm))) ∧
    (st.any (fun itm => attrsMatch (keyQuery k) itm) = false →
      Keyring.delete st k noFaults = (.ok (), st)) ∧
    Keyring.retrieve (Keyring.delete (Keyring.store st' k v noFaults).2 k noFaults).2 k noFaults
      = .ok none ∧
    Keyring.delete (Keyring.delete (Keyring.store st' k v noFaults).2 k noFaults).2 k noFaults
      = (.ok (), (Keyring.delete (Keyring.store st' k v noFaults).2 k noFaults).2) := by
  have hdel : ∀ s : Collection, Keyring.delete s k noFaults =
      (.ok (), s.filter (fun itm => !(attrsMatch (keyQuery k) itm))) := by
    intro s
    simp [Keyring.delete, noFaults, deleteMatching_none]
  refine ⟨hdel st, ?_, ?_, ?_⟩
  · intro h
    rw [hdel st]
    rw [List.filter_eq_self.mpr]
    intro a ha
    have := List.any_eq_false.mp h a ha
    simpa using this
  · rw [hdel]
    simp [Keyring.retrieve, noFaults, filter_not_filter]
  · rw [hdel, hdel]
    simp only [Prod.mk.injEq, true_and]
    rw [List.filter_eq_self.mpr]
    intro a ha
    have hmem := (List.mem_filter.mp ha).2
    simpa using hmem

/-- Witness for C7: deleting from the empty collection (zero matches) is a
successful no-op, discharged through the zero-match conjunct. -/
theorem Keyring.delete_all_matching_witness :
    Keyring.delete [] "k" noFaults = (.ok (), []) :=
  (Keyring.delete_all_matching [] [] "k" "v").2.1 (by decide)

/-- C8: on the read paths a search failure is absorbed — `retrieve` yields
`Ok(None)` and `list_keys` yields `Ok([])` — `list_keys` silently skips items
without a `key` attribute, but a matched item whose stored bytes are not
valid UTF-8 makes `retrieve` fail hard with an encoding error. -/
theorem Keyring.read_path_error_absorption (st st₁ st₂ : Collection) (k : String) (x : Item) :
    Keyring.retrieve st k searchFault = .ok none ∧
    Keyring.list_keys st searchFault = .ok [] ∧
    (x.attrs.lookup "key" = none →
      Keyring.list_keys (st₁ ++ x :: st₂) noFaults = Keyring.list_keys (st₁ ++ st₂) noFaults) ∧
    (∀ itm bs, (st.filter (fun j => attrsMatch (keyQuery k) j)).getLast? = some itm →
      itm.secret = .invalid bs →
      Keyring.retrieve st k noFaults = .error .encodingError) := by
  refine ⟨?_, ?_, ?_, ?_⟩
  · simp [Keyring.retrieve, searchFault]
  · simp [Keyring.list_keys, searchFault]
  · intro hx
    by_cases hs : attrsMatch serviceQuery x = true
    · simp [Keyring.list_keys, noFaults, List.filter_append, hs, hx]
    · simp only [Bool.not_eq_true] at hs
      simp [Keyring.list_keys, noFaults, List.filter_append, hs]
  · intro itm bs h hb
    simp [Keyring.retrieve, noFaults, h, hb]

/-- Witness for C8: a matched item holding non-UTF-8 bytes makes `retrieve`
fail with the encoding error. -/
theorem Keyring.read_path_error_absorption_witness :
    Keyring.retrieve [(⟨"vibeproxy/k", keyQuery "k", .invalid [255], "text/plain"⟩ : Item)]
      "k" noFaults = .error .encodingError :=
  (Keyring.read_path_error_absorption
      [(⟨"vibeproxy/k", keyQuery "k", .invalid [255], "text/plain"⟩ : Item)] [] [] "k"
      ⟨"x", [], .utf8 "", "text/plain"⟩).2.2.2
    ⟨"vibeproxy/k", keyQuery "k", .invalid [255], "text/plain"⟩ [255] (by decide) rfl

/-- C10: `delete` is not atomic on failure — when the i-th matched item's
deletion fails, the error propagates, the earlier matched items stay deleted
(only the matched items from position i on remain), and the non-matching
items are untouched. -/
theorem Keyring.delete_partial_failure (st : Collection) (k : String) (i : Nat)
    (h : i < (st.filter (fun itm => attrsMatch (keyQuery k) itm)).length) :
    (Keyring.delete st k (deleteFaultAt i)).1 = .error .deleteFailed ∧
    (Keyring.delete st k (deleteFaultAt i)).2.filter (fun itm => attrsMatch (keyQuery k) itm) =
      (st.filter (fun itm => attrsMatch (keyQuery k) itm)).drop i ∧
    (Keyring.delete st k (deleteFaultAt i)).2.filter (fun itm => !(attrsMatch (keyQuery k) itm)) =
      st.filter (fun itm => !(attrsMatch (keyQuery k) itm)) := by
  have := deleteMatching_fail (keyQuery k) st i h
  simpa [Keyring.delete, deleteFaultAt] using this

/-- Witness for C10: two matching items, failure on the second — the error is
returned while the first matched item is already gone and the second
remains. -/
theorem Keyring.delete_partial_failure_witness :
    (Keyring.delete [(⟨"vibeproxy/k", keyQuery "k", .utf8 "a", "text/plain"⟩ : Item),
        ⟨"vibeproxy/k", keyQuery "k", .utf8 "b", "text/plain"⟩] "k" (deleteFaultAt 1)).1 =
      .error .deleteFailed ∧
    (Keyring.delete [(⟨"vibeproxy/k", keyQuery "k", .utf8 "a", "text/plain"⟩ : Item),
        ⟨"vibeproxy/k", keyQuery "k", .utf8 "b", "text/plain"⟩] "k" (deleteFaultAt 1)).2 =
      [⟨"vibeproxy/k", keyQuery "k", .utf8 "b", "text/plain"⟩] :=
  ⟨(Keyring.delete_partial_failure
      [⟨"vibeproxy/k", keyQuery "k", .utf8 "a", "text/plain"⟩,
       ⟨"vibeproxy/k", keyQuery "k", .utf8 "b", "text/plain"⟩] "k" 1 (by decide)).1,
   by decide⟩

/-! ## ConfigManager (config_manager.rs)

`load` is a function of the backing file (absent, or present with some
contents), the outcome of `fs::read_to_string`, and the `serde_json`
deserializer; `save` additionally records the file-system operations it
issues, so that the write discipline (direct write vs. write-to-temp-then-
rename) is observable. -/

/-- Errors of the config manager (the `anyhow` contexts in the source). -/
inductive ConfigError where
  | readFailed
  | parseFailed
  | serializeFailed
  | writeFailed
deriving Repr, DecidableEq

/-- A file-system operation issued by `save`. -/
inductive FsOp where
  | writeFile (path : String) (content : String)
  | renameFile (src : String) (dst : String)
deriving Repr, DecidableEq

/-- `ConfigManager::load` (config_manager.rs): an absent file yields
`AppConfig::default()`; a present file is read (read failure propagates) and
parsed (parse failure is a hard error). `file` is the backing file's state
(`none` when `config_path.exists()` is false), `parse` the `serde_json`
deserializer. -/
def ConfigManager.load (file : Option String) (read_fails : Bool)
    (parse : String → Option AppConfig) : Except ConfigError AppConfig :=
  match file with
  | none => .ok AppConfig.default
  | some content =>
    if read_fails then .error .readFailed
    else
      match parse content with
      | some config => .ok config
      | none => .error .parseFailed

/-- `ConfigManager::save` (config_manager.rs): serialize the full config
(failure propagates), then `fs::write` the serialized text directly to the
config path (failure is a write error). Returns the `Result` together with
the list of file-system operations issued. -/
def ConfigManager.save (path : String) (config : AppConfig)
    (serialize : AppConfig → Option String) (write_fails : Bool) :
    Except ConfigError Unit × List FsOp :=
  match serialize config with
  | none => (.error .serializeFailed, [])
  | some content =>
    if write_fails then (.error .writeFailed, [.writeFile path content])
    else (.ok (), [.writeFile path content])

/-- Modelled from the spec (§4.1): the write-to-temp-then-rename discipline
claimed for `save` — the config path is produced by a rename onto it and is
never the target of a direct file write, so an interrupted write can only
damage the temp file, never the config path. -/
def specTempThenRename (path : String) (ops : List FsOp) : Bool :=
  (ops.any (fun op => match op with
    | .renameFile _ dst => dst == path
    | _ => false)) &&
  (ops.all (fun op => match op with
    | .writeFile p _ => !(p == path)
    | _ => true))

/-- C4 counterexample: on a concrete successful `save`, the operation trace
is a single direct write of the serialized content to the config path, which
violates the claimed write-to-temp-then-rename discipline. -/
theorem ConfigManager.save_counterexample :
    (ConfigManager.save "config.json" AppConfig.default
        (fun _ => some "serialized") false).2 =
      [FsOp.writeFile "config.json" "serialized"] ∧
    specTempThenRename "config.json"
      (ConfigManager.save "config.json" AppConfig.default
        (fun _ => some "serialized") false).2 = false := by
  constructor
  · rfl
  · rfl

/-- C4 (amended): `save` serializes the full config and issues exactly one
direct `fs::write` of the serialized text to the backing path — no temp file
and no rename, hence no atomicity guarantee — and an I/O failure of that
write is reported as a write error. -/
theorem ConfigManager.save_direct_write (path : String) (config : AppConfig)
    (serialize : AppConfig → Option String) (write_fails : Bool) (content : String)
    (hs : serialize config = some content) :
    ConfigManager.save path config serialize write_fails =
      (if write_fails then .error .writeFailed else .ok (),
        [FsOp.writeFile path content]) := by
  by_cases hw : write_fails = true
  · simp [ConfigManager.save, hs, hw]
  · simp only [Bool.not_eq_true] at hw
    simp [ConfigManager.save, hs, hw]

/-- Witness for the amended C4: a failing write on a concrete config reports
the write error while the trace still shows the one direct write. -/
theorem ConfigManager.save_direct_write_witness :
    ConfigManager.save "config.json" AppConfig.default
        (fun _ => some "serialized") true =
      (if true then .error .writeFailed else .ok (),
        [FsOp.writeFile "config.json" "serialized"]) :=
  ConfigManager.save_direct_write "config.json" AppConfig.default
    (fun _ => some "serialized") true "serialized" rfl

/-- C6: `load` on an absent backing file returns the fully-defaulted config
without error, and on a present file whose contents fail to parse it returns
a hard parse error rather than silently substituting defaults. -/
theorem ConfigManager.load_default_or_parse_error
    (read_fails : Bool) (parse : String → Option AppConfig) (content : String) :
    ConfigManager.load none read_fails parse = .ok AppConfig.default ∧
    (parse content = none →
      ConfigManager.load (some content) false parse = .error .parseFailed) := by
  constructor
  · rfl
  · intro h
    simp [ConfigManager.load, h]

/-- Witness for C6: a concrete unparsable file is a hard parse error. -/
theorem ConfigManager.load_default_or_parse_error_witness :
    ConfigManager.load (some "garbage") false (fun _ => none) = .error .parseFailed :=
  (ConfigManager.load_default_or_parse_error false (fun _ => none) "garbage").2 rfl

end VibeProxy
